import Mathlib

/-!
Verification development for the flashfreeze stat-aggregation core
(jan-malicki/nom-nom-shark).  The definitions below are a shallow
embedding of the Python sources under `src/flashfreeze/`:

* `core/common.py`        — `Stat`, `Rarity` enumerations
* `game_data_loader.py`   — scaling-table lookups (tables abstracted)
* `core/drive_disc_data.py` — `SubStatInstance`, `DriveDisc` and its
  construction-time validation
* `core/drive_disc_set_data.py` — set reference data
* `core/w_engine_data.py` — `EquippedWEngine`
* `core/agent_data.py`    — bonus/total stat records, the bonus
  aggregator and the `Agent` aggregate with its stat cache

Python floats are modelled as rationals (`ℚ`), Python ints as `ℤ`
(`int(x)` truncation toward zero is `pyInt`), dictionaries as
insertion-ordered association lists, and fallible constructors as
`Except String`.
-/

namespace FlashFreeze

/-- Stat enumeration from `core/common.py`.  The members
`IMPACT_PERCENT`, `ANOMALY_MASTERY_PERCENT`, `ENERGY_REGEN_PERCENT` and
`ENERGY_LIMIT` are referenced by `AgentBonusStats.add_stat` in
`core/agent_data.py` (and by the spec's StatKind list) but their
declarations are in a revision of `common.py` that is not part of the
source snapshot.  Modelled from the spec: StatKind is the closed
enumeration of §3 including the percent variants and EnergyLimit.
(`PEN_RATIO'` carries a prime; the source member is `PEN_RATIO`.) -/
inductive Stat where
  | HP
  | ATK
  | DEF
  | HP_PERCENT
  | ATK_PERCENT
  | DEF_PERCENT
  | IMPACT
  | IMPACT_PERCENT
  | CRIT_RATE
  | CRIT_DMG
  | ANOMALY_MASTERY
  | ANOMALY_MASTERY_PERCENT
  | ANOMALY_PROFICIENCY
  | PEN_RATIO'
  | PEN
  | ENERGY_REGEN
  | ENERGY_REGEN_PERCENT
  | ENERGY_GENERATION_RATE
  | ENERGY_LIMIT
  | PHYSICAL_DMG
  | FIRE_DMG
  | ICE_DMG
  | ELECTRIC_DMG
  | ETHER_DMG
  | UNKNOWN
  deriving DecidableEq

/-- String value of each stat, as in `core/common.py` (the enum value
used as a JSON table key). -/
def Stat.value : Stat → String
  | .HP => "HP"
  | .ATK => "ATK"
  | .DEF => "DEF"
  | .HP_PERCENT => "HP%"
  | .ATK_PERCENT => "ATK%"
  | .DEF_PERCENT => "DEF%"
  | .IMPACT => "Impact"
  | .IMPACT_PERCENT => "Impact%"
  | .CRIT_RATE => "CRIT Rate"
  | .CRIT_DMG => "CRIT DMG"
  | .ANOMALY_MASTERY => "Anomaly Mastery"
  | .ANOMALY_MASTERY_PERCENT => "Anomaly Mastery%"
  | .ANOMALY_PROFICIENCY => "Anomaly Proficiency"
  | .PEN_RATIO' => "PEN Ratio"
  | .PEN => "PEN"
  | .ENERGY_REGEN => "Energy Regen"
  | .ENERGY_REGEN_PERCENT => "Energy Regen%"
  | .ENERGY_GENERATION_RATE => "Energy Generation Rate"
  | .ENERGY_LIMIT => "Energy Limit"
  | .PHYSICAL_DMG => "Physical DMG"
  | .FIRE_DMG => "Fire DMG"
  | .ICE_DMG => "Ice DMG"
  | .ELECTRIC_DMG => "Electric DMG"
  | .ETHER_DMG => "Ether DMG"
  | .UNKNOWN => "Unknown"

/-- Modelled from the spec: `Stat.get_damage_bonus_stats` is called by
`game_data_loader.get_drive_main_stat_value` but defined in a
`common.py` revision outside the snapshot; per spec §4.1 it is the set
of the five elemental-DMG% kinds. -/
def Stat.get_damage_bonus_stats : List Stat :=
  [.PHYSICAL_DMG, .FIRE_DMG, .ICE_DMG, .ELECTRIC_DMG, .ETHER_DMG]

/-- Rarity enumeration from `core/common.py`. -/
inductive Rarity where
  | C
  | B
  | A
  | S
  | UNKNOWN
  deriving DecidableEq

/-- String value of each rarity (JSON table key). -/
def Rarity.value : Rarity → String
  | .C => "C"
  | .B => "B"
  | .A => "A"
  | .S => "S"
  | .UNKNOWN => "Unknown"

/-- Python `int(x)` applied to a float: truncation toward zero. -/
def pyInt (v : ℚ) : ℤ := Int.tdiv v.num v.den

/-- The static scaling tables behind `game_data_loader`.  The JSON
files are external data, so table contents are abstract; a `none`
entry covers both a missing key and a value that fails float
conversion (both make the loader return `None`).  Levels are keyed by
the integer itself (the loader keys by `str(level)`, injective). -/
structure GameData where
  mainStats : String → String → ℤ → Option ℚ
  subStats : String → String → Option ℚ

/-- `game_data_loader.get_drive_main_stat_value`: normalizes all
damage-bonus stats to the shared table key `"DMG"`, then looks up
stat/rarity/level. -/
def get_drive_main_stat_value (gd : GameData) (rarity : Rarity) (stat_type : Stat)
    (level : ℤ) : Option ℚ :=
  let stat_key := if stat_type ∈ Stat.get_damage_bonus_stats then "DMG" else stat_type.value
  gd.mainStats stat_key rarity.value level

/-- `game_data_loader.get_drive_substat_base_value`: looks up the
per-roll base value by stat/rarity. -/
def get_drive_substat_base_value (gd : GameData) (rarity : Rarity) (stat_type : Stat) :
    Option ℚ :=
  gd.subStats stat_type.value rarity.value

/-- `MAX_LEVEL_PER_RARITY` from `core/drive_disc_data.py` (a dict with
entries only for B, A, S). -/
def MAX_LEVEL_PER_RARITY : Rarity → Option ℤ
  | .B => some 9
  | .A => some 12
  | .S => some 15
  | _ => none

/-- `POSSIBLE_MAIN_STATS_PER_SLOT` from `core/drive_disc_data.py`
(missing slots give the dict-lookup default `[]`). -/
def POSSIBLE_MAIN_STATS_PER_SLOT (slot : ℤ) : List Stat :=
  if slot = 1 then [.HP]
  else if slot = 2 then [.ATK]
  else if slot = 3 then [.DEF]
  else if slot = 4 then
    [.HP_PERCENT, .ATK_PERCENT, .DEF_PERCENT, .CRIT_RATE, .CRIT_DMG, .ANOMALY_PROFICIENCY]
  else if slot = 5 then
    [.HP_PERCENT, .ATK_PERCENT, .DEF_PERCENT, .PEN_RATIO', .PHYSICAL_DMG, .FIRE_DMG,
      .ICE_DMG, .ELECTRIC_DMG, .ETHER_DMG]
  else if slot = 6 then
    [.HP_PERCENT, .ATK_PERCENT, .DEF_PERCENT, .ANOMALY_MASTERY, .IMPACT, .ENERGY_REGEN]
  else []

/-- `POSSIBLE_SUBSTATS` from `core/drive_disc_data.py`. -/
def POSSIBLE_SUBSTATS : List Stat :=
  [.HP, .ATK, .DEF, .HP_PERCENT, .ATK_PERCENT, .DEF_PERCENT,
    .PEN, .CRIT_RATE, .CRIT_DMG, .ANOMALY_PROFICIENCY]

/-- `MAX_SUBSTATS_COUNT` from `core/drive_disc_data.py`. -/
def MAX_SUBSTATS_COUNT : ℤ := 4

/-- `MAX_SUBSTAT_ROLLS` from `core/drive_disc_data.py`. -/
def MAX_SUBSTAT_ROLLS : ℤ := 5

/-- `SubStatInstance` from `core/drive_disc_data.py`. -/
structure SubStatInstance where
  stat_type : Stat
  rolls : ℤ := 0
  deriving DecidableEq

/-- `SubStatInstance.get_value`: base value times `(rolls + 1)` with
rolls clamped at `MAX_SUBSTAT_ROLLS`; a missing base value yields 0.0
with a warning. -/
def SubStatInstance.get_value (sub : SubStatInstance) (gd : GameData) (rarity : Rarity) : ℚ :=
  match get_drive_substat_base_value gd rarity sub.stat_type with
  | none => 0
  | some base_value =>
    let actual_rolls := min sub.rolls MAX_SUBSTAT_ROLLS
    base_value * ((actual_rolls + 1 : ℤ) : ℚ)

/-- `DriveDisc2PieceBonus` from `core/drive_disc_set_data.py`. -/
structure DriveDisc2PieceBonus where
  simple_stat : Option Stat := none
  complex_stat : Option String := none
  value : Option ℚ := none
  deriving DecidableEq

/-- `DriveDisc4PieceBonus` from `core/drive_disc_set_data.py` (the
`values` dict of named numeric placeholders is kept as raw key/value
strings; it is display-only data). -/
structure DriveDisc4PieceBonus where
  description : Option String := none
  values : List (String × String) := []
  deriving DecidableEq

/-- `DriveDiscSetData` from `core/drive_disc_set_data.py`. -/
structure DriveDiscSetData where
  name : String
  bonus_2pc : Option DriveDisc2PieceBonus := none
  bonus_4pc : Option DriveDisc4PieceBonus := none
  deriving DecidableEq

/-- `DriveDisc` from `core/drive_disc_data.py`: the validated record.
Values of this type are produced by `mkDriveDisc`, which performs the
`__post_init__` validation. -/
structure DriveDisc where
  set_data : DriveDiscSetData
  rarity : Rarity
  level : ℤ
  slot : ℤ
  main_stat_type : Stat
  sub_stats : List SubStatInstance := []
  deriving DecidableEq

/-- The per-substat loop of `DriveDisc.__post_init__`: checks each
substat in order (equal to main stat, membership in
`POSSIBLE_SUBSTATS`, duplicate against the ones already seen, roll
range) and accumulates the total roll count. -/
def validateSubStats (main : Stat) : List SubStatInstance → List Stat → ℤ →
    Except String ℤ
  | [], _, total => .ok total
  | sub :: rest, seen, total =>
    if sub.stat_type = main then
      .error "Substat cannot be the same as main stat."
    else if sub.stat_type ∉ POSSIBLE_SUBSTATS then
      .error "Invalid substat type."
    else if sub.stat_type ∈ seen then
      .error "Duplicate substat type found."
    else if ¬ (0 ≤ sub.rolls ∧ sub.rolls ≤ MAX_SUBSTAT_ROLLS) then
      .error "Invalid number of rolls for substat. Must be 0-5."
    else
      validateSubStats main rest (sub.stat_type :: seen) (total + sub.rolls)

/-- `DriveDisc.__post_init__` as a fallible constructor: clamps the
level to `[0, rarity-max]` (dict default 0), then validates slot, main
stat for slot, substat count, the per-substat conditions and the total
roll budget.  Any violation is a `ValueError` with a descriptive
message, modelled as `Except.error`. -/
def mkDriveDisc (set_data : DriveDiscSetData) (rarity : Rarity) (level : ℤ) (slot : ℤ)
    (main_stat_type : Stat) (sub_stats : List SubStatInstance) : Except String DriveDisc :=
  let max_level := (MAX_LEVEL_PER_RARITY rarity).getD 0
  let level := max 0 (min level max_level)
  if ¬ (1 ≤ slot ∧ slot ≤ 6) then
    .error "Invalid slot number. Must be 1-6."
  else if main_stat_type ∉ POSSIBLE_MAIN_STATS_PER_SLOT slot then
    .error "Invalid main stat for slot."
  else if (sub_stats.length : ℤ) > MAX_SUBSTATS_COUNT then
    .error "Cannot have more than 4 substats."
  else
    match validateSubStats main_stat_type sub_stats [] 0 with
    | .error e => .error e
    | .ok total_sub_rolls =>
      if total_sub_rolls > MAX_SUBSTAT_ROLLS then
        .error "Total substat rolls exceed maximum allowed."
      else
        .ok { set_data := set_data, rarity := rarity, level := level, slot := slot,
              main_stat_type := main_stat_type, sub_stats := sub_stats }

/-- `DriveDisc.get_main_stat_value`: value for the exact level, else
fall back to the value at the rarity's max level, else 0.0 with a
warning. -/
def DriveDisc.get_main_stat_value (d : DriveDisc) (gd : GameData) : ℚ :=
  match get_drive_main_stat_value gd d.rarity d.main_stat_type d.level with
  | some value => value
  | none =>
    match MAX_LEVEL_PER_RARITY d.rarity with
    | some max_level_for_rarity =>
      match get_drive_main_stat_value gd d.rarity d.main_stat_type max_level_for_rarity with
      | some value => value
      | none => 0
    | none => 0

/-- Insertion-ordered dictionary update (`dict[k] = v`): replaces the
value at an existing key in place, otherwise appends. -/
def dictInsert {α β : Type} [DecidableEq α] (k : α) (v : β) : List (α × β) → List (α × β)
  | [] => [(k, v)]
  | (k', v') :: rest => if k' = k then (k', v) :: rest else (k', v') :: dictInsert k v rest

/-- Dictionary lookup (`dict.get(k)`). -/
def dictGet {α β : Type} [DecidableEq α] (k : α) : List (α × β) → Option β
  | [] => none
  | (k', v) :: rest => if k' = k then some v else dictGet k rest

/-- `WEngineAdvancedStat` from `core/w_engine_data.py`. -/
structure WEngineAdvancedStat where
  stat : Stat := .UNKNOWN
  value : ℚ := 0

/-- `WEngineData` from `core/w_engine_data.py` (the display-only
passive block and specialty are omitted; they never feed the stat
aggregation). -/
structure WEngineData where
  name : String
  rarity : Rarity := .UNKNOWN
  base_atk : ℚ := 0
  advanced_stat : Option WEngineAdvancedStat := none

/-- `EquippedWEngine` from `core/w_engine_data.py`: the record as it
stands after `__post_init__`; built by `mkEquippedWEngine`. -/
structure EquippedWEngine where
  wengine_data : WEngineData
  level : ℤ := 0
  modification : ℤ := 0
  phase : ℤ := 1

/-- `EquippedWEngine.__post_init__`: clamp level to `[1, 60]`,
modification to `[0, 5]`, phase to `[1, 5]`, then re-clamp the level
into the 10-level band implied by the modification tier (a warning,
never a rejection). -/
def mkEquippedWEngine (wengine_data : WEngineData) (level modification phase : ℤ) :
    EquippedWEngine :=
  let level := max 1 (min level 60)
  let modification := max 0 (min modification 5)
  let phase := max 1 (min phase 5)
  let min_level := modification * 10
  let max_level := min_level + 10
  let level :=
    if min_level ≤ level ∧ level ≤ max_level then level
    else max min_level (min level max_level)
  { wengine_data := wengine_data, level := level, modification := modification, phase := phase }

/-- `AgentBaseStats` from `core/agent_data.py` (dataclass field
defaults are all zero). -/
structure AgentBaseStats where
  hp : ℚ := 0
  atk : ℚ := 0
  defense : ℚ := 0
  impact : ℚ := 0
  anomaly_mastery : ℚ := 0
  anomaly_proficiency : ℚ := 0
  pen_ratio : ℚ := 0
  energy_regen : ℚ := 0
  energy_limit : ℚ := 0
  crit_rate : ℚ := 0
  crit_dmg : ℚ := 0

/-- `AgentBonusStats` from `core/agent_data.py`: the mutable bonus
accumulator, one field per stat kind, all zero by default. -/
structure AgentBonusStats where
  hp : ℚ := 0
  hp_percent : ℚ := 0
  atk : ℚ := 0
  atk_percent : ℚ := 0
  defense : ℚ := 0
  def_percent : ℚ := 0
  impact : ℚ := 0
  impact_percent : ℚ := 0
  crit_rate : ℚ := 0
  crit_dmg : ℚ := 0
  anomaly_mastery : ℚ := 0
  anomaly_mastery_percent : ℚ := 0
  anomaly_proficiency : ℚ := 0
  pen_ratio : ℚ := 0
  pen : ℚ := 0
  energy_regen : ℚ := 0
  energy_regen_percent : ℚ := 0
  energy_generation_rate : ℚ := 0
  energy_limit : ℚ := 0
  physical_dmg : ℚ := 0
  fire_dmg : ℚ := 0
  ice_dmg : ℚ := 0
  electric_dmg : ℚ := 0
  ether_dmg : ℚ := 0

/-- `AgentBonusStats.add_stat`: kind-directed accumulation; integer
kinds truncate the value with `int(...)`, percent/rate kinds stay
float; an unsupported kind only prints a warning and changes
nothing. -/
def AgentBonusStats.add_stat (bs : AgentBonusStats) (stat : Stat) (value : ℚ) :
    AgentBonusStats :=
  match stat with
  | .HP => { bs with hp := bs.hp + (pyInt value : ℚ) }
  | .HP_PERCENT => { bs with hp_percent := bs.hp_percent + value }
  | .ATK => { bs with atk := bs.atk + (pyInt value : ℚ) }
  | .ATK_PERCENT => { bs with atk_percent := bs.atk_percent + value }
  | .DEF => { bs with defense := bs.defense + (pyInt value : ℚ) }
  | .DEF_PERCENT => { bs with def_percent := bs.def_percent + value }
  | .IMPACT => { bs with impact := bs.impact + (pyInt value : ℚ) }
  | .IMPACT_PERCENT => { bs with impact_percent := bs.impact_percent + value }
  | .CRIT_RATE => { bs with crit_rate := bs.crit_rate + value }
  | .CRIT_DMG => { bs with crit_dmg := bs.crit_dmg + value }
  | .ANOMALY_MASTERY => { bs with anomaly_mastery := bs.anomaly_mastery + (pyInt value : ℚ) }
  | .ANOMALY_MASTERY_PERCENT =>
    { bs with anomaly_mastery_percent := bs.anomaly_mastery_percent + value }
  | .ANOMALY_PROFICIENCY =>
    { bs with anomaly_proficiency := bs.anomaly_proficiency + (pyInt value : ℚ) }
  | .PEN_RATIO' => { bs with pen_ratio := bs.pen_ratio + value }
  | .PEN => { bs with pen := bs.pen + (pyInt value : ℚ) }
  | .ENERGY_REGEN => { bs with energy_regen := bs.energy_regen + value }
  | .ENERGY_REGEN_PERCENT => { bs with energy_regen_percent := bs.energy_regen_percent + value }
  | .ENERGY_GENERATION_RATE =>
    { bs with energy_generation_rate := bs.energy_generation_rate + value }
  | .ENERGY_LIMIT => { bs with energy_limit := bs.energy_limit + (pyInt value : ℚ) }
  | .PHYSICAL_DMG => { bs with physical_dmg := bs.physical_dmg + value }
  | .FIRE_DMG => { bs with fire_dmg := bs.fire_dmg + value }
  | .ICE_DMG => { bs with ice_dmg := bs.ice_dmg + value }
  | .ELECTRIC_DMG => { bs with electric_dmg := bs.electric_dmg + value }
  | .ETHER_DMG => { bs with ether_dmg := bs.ether_dmg + value }
  | .UNKNOWN => bs

/-- `AgentTotalStats` from `core/agent_data.py`. -/
structure AgentTotalStats where
  hp : ℚ := 0
  atk : ℚ := 0
  defense : ℚ := 0
  impact : ℚ := 0
  crit_rate : ℚ := 0
  crit_dmg : ℚ := 0
  anomaly_mastery : ℚ := 0
  anomaly_proficiency : ℚ := 0
  pen_ratio : ℚ := 0
  pen : ℚ := 0
  energy_regen : ℚ := 0
  energy_limit : ℚ := 0
  physical_dmg : ℚ := 0
  fire_dmg : ℚ := 0
  ice_dmg : ℚ := 0
  electric_dmg : ℚ := 0
  ether_dmg : ℚ := 0

/-- `AgentTotalStats.from_base_and_bonus`: the per-kind combination
formulas. -/
def AgentTotalStats.from_base_and_bonus (base_stats : AgentBaseStats)
    (bonus_stats : AgentBonusStats) : AgentTotalStats :=
  { hp := base_stats.hp * (1 + bonus_stats.hp_percent / 100) + bonus_stats.hp
    atk := base_stats.atk * (1 + bonus_stats.atk_percent / 100) + bonus_stats.atk
    defense := base_stats.defense * (1 + bonus_stats.def_percent / 100) + bonus_stats.defense
    impact := base_stats.impact * (1 + bonus_stats.impact_percent / 100) + bonus_stats.impact
    crit_rate := base_stats.crit_rate + bonus_stats.crit_rate
    crit_dmg := base_stats.crit_dmg + bonus_stats.crit_dmg
    anomaly_mastery :=
      base_stats.anomaly_mastery * (1 + bonus_stats.anomaly_mastery_percent / 100)
        + bonus_stats.anomaly_mastery
    anomaly_proficiency := base_stats.anomaly_proficiency + bonus_stats.anomaly_proficiency
    pen_ratio := base_stats.pen_ratio + bonus_stats.pen_ratio
    pen := bonus_stats.pen
    energy_regen :=
      base_stats.energy_regen * (1 + bonus_stats.energy_regen_percent / 100)
        + bonus_stats.energy_regen
    energy_limit := base_stats.energy_limit + bonus_stats.energy_limit
    physical_dmg := bonus_stats.physical_dmg
    fire_dmg := bonus_stats.fire_dmg
    ice_dmg := bonus_stats.ice_dmg
    electric_dmg := bonus_stats.electric_dmg
    ether_dmg := bonus_stats.ether_dmg }

/-- Hashing a `DriveDiscSetData` value.  The class is a plain
`@dataclass` (eq generated, not frozen), so Python sets its `__hash__`
to `None` and every attempt to use an instance as a dict key raises
`TypeError: unhashable type`. -/
def pyHashSetData (_ : DriveDiscSetData) : Except String Unit :=
  .error "TypeError: unhashable type: DriveDiscSetData"

/-- `Agent.get_active_set_counts`: for each equipped disc the loop
evaluates `set_counts.get(set_data, 0)`, which hashes `set_data` —
raising `TypeError` on the first disc — and would otherwise perform
the insertion-ordered dict update. -/
def pyGetActiveSetCounts (discs : List DriveDisc) :
    Except String (List (DriveDiscSetData × ℤ)) :=
  discs.foldlM
    (fun set_counts disc => do
      _ ← pyHashSetData disc.set_data
      pure (dictInsert disc.set_data ((dictGet disc.set_data set_counts).getD 0 + 1)
        set_counts))
    []

/-- Whether a fallible construction succeeded. -/
def exceptIsOk {α : Type} : Except String α → Bool
  | .ok _ => true
  | .error _ => false

/-- The construction-time invariants of a Drive Disc, as claim C4
enumerates them: slot in 1-6, main stat legal for the slot, at most 4
substats, every substat allowed, no duplicate substats, no substat
equal to the main stat, every roll count in 0-5, and the substat rolls
summing to at most 5.  `discViolation` holds when at least one is
broken. -/
def discViolation (slot : ℤ) (main_stat_type : Stat) (sub_stats : List SubStatInstance) :
    Prop :=
  ¬ (1 ≤ slot ∧ slot ≤ 6)
  ∨ main_stat_type ∉ POSSIBLE_MAIN_STATS_PER_SLOT slot
  ∨ (sub_stats.length : ℤ) > MAX_SUBSTATS_COUNT
  ∨ (∃ sub ∈ sub_stats, sub.stat_type ∉ POSSIBLE_SUBSTATS)
  ∨ ¬ sub_stats.Pairwise (fun x y => x.stat_type ≠ y.stat_type)
  ∨ (∃ sub ∈ sub_stats, sub.stat_type = main_stat_type)
  ∨ (∃ sub ∈ sub_stats, ¬ (0 ≤ sub.rolls ∧ sub.rolls ≤ MAX_SUBSTAT_ROLLS))
  ∨ (sub_stats.map (fun sub => sub.rolls)).sum > MAX_SUBSTAT_ROLLS

/-- The stored W-Engine level that claim C9 prescribes: clamp the
input level to `[0, 60]`, clamp modification to `[0, 5]`, then
re-clamp the level into the band `[mod*10, mod*10+10]`. -/
def claimedWEngineLevel (level modification : ℤ) : ℤ :=
  let level := max 0 (min level 60)
  let modification := max 0 (min modification 5)
  max (modification * 10) (min level (modification * 10 + 10))

/-- Sample static W-Engine record for concrete instances. -/
def sampleWEngineData : WEngineData := { name := "Steel Cushion" }

/-- Sample disc set without a recognized 2-piece stat bonus. -/
def setNoBonusA : DriveDiscSetData := { name := "Set A" }

/-- A second sample disc set without a 2-piece stat bonus. -/
def setNoBonusB : DriveDiscSetData := { name := "Set B" }

/-- Sample disc set whose 2-piece bonus is a recognized stat:
ATK% +10. -/
def setAtkBonus : DriveDiscSetData :=
  { name := "Set W",
    bonus_2pc := some { simple_stat := some .ATK_PERCENT, value := some 10 } }

/-- Sample disc set whose 2-piece bonus is unrecognized ("complex"):
the stat string could not be mapped into the closed Stat set. -/
def setComplexBonus : DriveDiscSetData :=
  { name := "Set X",
    bonus_2pc := some { complex_stat := some "Shield effect", value := some 20 } }

/-- Two discs of `setAtkBonus` in different slots plus one disc of a
different set, for the set-count instances. -/
def discsTwoPlusOne : List (ℤ × DriveDisc) :=
  [(1, { set_data := setAtkBonus, rarity := .S, level := 15, slot := 1,
         main_stat_type := .HP }),
   (4, { set_data := setAtkBonus, rarity := .S, level := 15, slot := 4,
         main_stat_type := .CRIT_RATE }),
   (2, { set_data := setNoBonusB, rarity := .S, level := 15, slot := 2,
         main_stat_type := .ATK })]

/-- Substat tables for the C5 instance: CRIT Rate at S rarity has
base value 2.4. -/
def gdSubstat : GameData :=
  { mainStats := fun _ _ _ => none,
    subStats := fun stat_key rarity_key =>
      if stat_key = "CRIT Rate" ∧ rarity_key = "S" then some (24/10) else none }

/-- Main-stat tables for the C6 instance: the shared "DMG" curve is
populated only at S rarity level 15 (value 30), so a level-5 lookup
must fall back to the max-level entry. -/
def gdDmgCurve : GameData :=
  { mainStats := fun stat_key rarity_key level =>
      if stat_key = "DMG" ∧ rarity_key = "S" ∧ level = 15 then some 30
      else none,
    subStats := fun _ _ => none }

/-- An S-rarity slot-5 Fire DMG% disc at level 5, whose exact-level
main-stat entry is missing from `gdDmgCurve`. -/
def discFireDmg : DriveDisc :=
  { set_data := setNoBonusA, rarity := .S, level := 5, slot := 5,
    main_stat_type := .FIRE_DMG }

theorem pyInt_intCast (n : ℤ) : pyInt (n : ℚ) = n := by
  simp [pyInt, Int.tdiv_one]

/-- C1: For every base-stats record and every bonus-stats record,
`from_base_and_bonus` computes each total per the per-kind formulas:
HP, ATK, DEF, AnomalyMastery and EnergyRegen each equal
`base*(1+bonus_percent/100) + bonus_flat`; CritRate, CritDmg,
AnomalyProficiency, PenRatio and EnergyLimit each equal
`base + bonus`; Pen and the five elemental DMG% kinds equal the bonus
alone with no base contribution. -/
theorem from_base_and_bonus_per_kind_formulas (base : AgentBaseStats)
    (bonus : AgentBonusStats) :
    (AgentTotalStats.from_base_and_bonus base bonus).hp =
        base.hp * (1 + bonus.hp_percent / 100) + bonus.hp ∧
    (AgentTotalStats.from_base_and_bonus base bonus).atk =
        base.atk * (1 + bonus.atk_percent / 100) + bonus.atk ∧
    (AgentTotalStats.from_base_and_bonus base bonus).defense =
        base.defense * (1 + bonus.def_percent / 100) + bonus.defense ∧
    (AgentTotalStats.from_base_and_bonus base bonus).anomaly_mastery =
        base.anomaly_mastery * (1 + bonus.anomaly_mastery_percent / 100)
          + bonus.anomaly_mastery ∧
    (AgentTotalStats.from_base_and_bonus base bonus).energy_regen =
        base.energy_regen * (1 + bonus.energy_regen_percent / 100) + bonus.energy_regen ∧
    (AgentTotalStats.from_base_and_bonus base bonus).crit_rate =
        base.crit_rate + bonus.crit_rate ∧
    (AgentTotalStats.from_base_and_bonus base bonus).crit_dmg =
        base.crit_dmg + bonus.crit_dmg ∧
    (AgentTotalStats.from_base_and_bonus base bonus).anomaly_proficiency =
        base.anomaly_proficiency + bonus.anomaly_proficiency ∧
    (AgentTotalStats.from_base_and_bonus base bonus).pen_ratio =
        base.pen_ratio + bonus.pen_ratio ∧
    (AgentTotalStats.from_base_and_bonus base bonus).energy_limit =
        base.energy_limit + bonus.energy_limit ∧
    (AgentTotalStats.from_base_and_bonus base bonus).pen = bonus.pen ∧
    (AgentTotalStats.from_base_and_bonus base bonus).physical_dmg = bonus.physical_dmg ∧
    (AgentTotalStats.from_base_and_bonus base bonus).fire_dmg = bonus.fire_dmg ∧
    (AgentTotalStats.from_base_and_bonus base bonus).ice_dmg = bonus.ice_dmg ∧
    (AgentTotalStats.from_base_and_bonus base bonus).electric_dmg = bonus.electric_dmg ∧
    (AgentTotalStats.from_base_and_bonus base bonus).ether_dmg = bonus.ether_dmg :=
  ⟨rfl, rfl, rfl, rfl, rfl, rfl, rfl, rfl, rfl, rfl, rfl, rfl, rfl, rfl, rfl, rfl⟩

/-- C8: Combining any base-stats record with the all-zero bonus record
yields the base value for every kind with a base contribution and zero
for the bonus-only kinds: the empty bonus record is an identity
element of the combination. -/
theorem combine_with_zero_bonus_is_identity (base : AgentBaseStats) :
    (AgentTotalStats.from_base_and_bonus base {}).hp = base.hp ∧
    (AgentTotalStats.from_base_and_bonus base {}).atk = base.atk ∧
    (AgentTotalStats.from_base_and_bonus base {}).defense = base.defense ∧
    (AgentTotalStats.from_base_and_bonus base {}).anomaly_mastery = base.anomaly_mastery ∧
    (AgentTotalStats.from_base_and_bonus base {}).crit_rate = base.crit_rate ∧
    (AgentTotalStats.from_base_and_bonus base {}).crit_dmg = base.crit_dmg ∧
    (AgentTotalStats.from_base_and_bonus base {}).anomaly_proficiency =
        base.anomaly_proficiency ∧
    (AgentTotalStats.from_base_and_bonus base {}).pen_ratio = base.pen_ratio ∧
    (AgentTotalStats.from_base_and_bonus base {}).energy_regen = base.energy_regen ∧
    (AgentTotalStats.from_base_and_bonus base {}).energy_limit = base.energy_limit ∧
    (AgentTotalStats.from_base_and_bonus base {}).pen = 0 ∧
    (AgentTotalStats.from_base_and_bonus base {}).physical_dmg = 0 ∧
    (AgentTotalStats.from_base_and_bonus base {}).fire_dmg = 0 ∧
    (AgentTotalStats.from_base_and_bonus base {}).ice_dmg = 0 ∧
    (AgentTotalStats.from_base_and_bonus base {}).electric_dmg = 0 ∧
    (AgentTotalStats.from_base_and_bonus base {}).ether_dmg = 0 := by
  refine ⟨?_, ?_, ?_, ?_, ?_, ?_, ?_, ?_, ?_, ?_, ?_, ?_, ?_, ?_, ?_, ?_⟩ <;>
    norm_num [AgentTotalStats.from_base_and_bonus]

/-- C7: `add_stat` is a total operation over the closed Stat
enumeration: it is modelled as a pure total function, so no call can
raise, and for the `Unknown` kind (the only kind without a
corresponding accumulator field) it returns the record with every
field unchanged, the warning being only a diagnostic print. -/
theorem add_stat_unknown_is_noop (bs : AgentBonusStats) (value : ℚ) :
    bs.add_stat .UNKNOWN value = bs := rfl

/-- C5: For every rarity, substat kind and roll count `r` with
`0 ≤ r ≤ 5`, the substat value equals the base value for the
rarity/kind pair times `(r + 1)`, and a missing base value yields 0.0
(a warning, never a failure). -/
theorem substat_value_formula (gd : GameData) (rarity : Rarity) (stat : Stat) (rolls : ℤ)
    (h0 : 0 ≤ rolls) (h5 : rolls ≤ 5) :
    (∀ base_value, get_drive_substat_base_value gd rarity stat = some base_value →
      SubStatInstance.get_value ⟨stat, rolls⟩ gd rarity = base_value * ((rolls : ℚ) + 1)) ∧
    (get_drive_substat_base_value gd rarity stat = none →
      SubStatInstance.get_value ⟨stat, rolls⟩ gd rarity = 0) := by
  constructor
  · intro base_value hb
    have hmin : min rolls MAX_SUBSTAT_ROLLS = rolls := by
      simp only [MAX_SUBSTAT_ROLLS]; omega
    simp only [SubStatInstance.get_value, hb, hmin]
    push_cast
    ring
  · intro hb
    simp [SubStatInstance.get_value, hb]

theorem substat_value_formula_witness :
    SubStatInstance.get_value ⟨.CRIT_RATE, 3⟩ gdSubstat .S = 48/5 := by
  have h := (substat_value_formula gdSubstat .S .CRIT_RATE 3 (by norm_num) (by norm_num)).1
    (24/10) rfl
  rw [h]
  norm_num

/-- C9 counterexample: the claim says construction clamps the input
level to `[0, 60]` before the band re-clamp, but the code clamps to
`[1, 60]`: with input level 0 and modification 0 the stored level is
1, while the claimed pipeline stores 0. -/
theorem wengine_level_clamp_counterexample :
    (mkEquippedWEngine sampleWEngineData 0 0 1).level = 1 ∧
    claimedWEngineLevel 0 0 = 0 ∧
    (mkEquippedWEngine sampleWEngineData 0 0 1).level ≠ claimedWEngineLevel 0 0 := by
  decide

/-- C9 (amended): `EquippedWEngine` construction clamps the input
level to `[1, 60]` (not `[0, 60]`) and then re-clamps it into the band
`[modification*10, modification*10+10]` after modification is clamped
to `[0, 5]` (and phase to `[1, 5]`), never rejecting the input; in
particular modification 5 with input level 70 stores level 60 and
modification 5. -/
theorem wengine_post_init_clamps (data : WEngineData) (level modification phase : ℤ) :
    (mkEquippedWEngine data level modification phase).modification =
        max 0 (min modification 5) ∧
    (mkEquippedWEngine data level modification phase).phase = max 1 (min phase 5) ∧
    (mkEquippedWEngine data level modification phase).level =
        max (max 0 (min modification 5) * 10)
          (min (max 1 (min level 60)) (max 0 (min modification 5) * 10 + 10)) ∧
    (mkEquippedWEngine data 70 5 phase).level = 60 ∧
    (mkEquippedWEngine data 70 5 phase).modification = 5 := by
  refine ⟨rfl, rfl, ?_, ?_, ?_⟩ <;>
    simp only [mkEquippedWEngine] <;> (try split_ifs) <;> omega

/-- C6: The main-stat value lookup normalizes the stat key so that all
five elemental-DMG% kinds share the one "DMG" table key, and the
disc-level getter returns the exact-level value when present, else the
value at the rarity's maximum level, else 0.0 with a warning; it is a
total function, never an exception. -/
theorem main_stat_lookup_normalization_and_fallback (gd : GameData) :
    (∀ (rarity : Rarity) (level : ℤ), ∀ stat ∈ Stat.get_damage_bonus_stats,
      get_drive_main_stat_value gd rarity stat level =
        gd.mainStats "DMG" rarity.value level) ∧
    (∀ (d : DriveDisc) (max_level : ℤ), MAX_LEVEL_PER_RARITY d.rarity = some max_level →
      (∀ v, get_drive_main_stat_value gd d.rarity d.main_stat_type d.level = some v →
        d.get_main_stat_value gd = v) ∧
      (get_drive_main_stat_value gd d.rarity d.main_stat_type d.level = none →
        (∀ v, get_drive_main_stat_value gd d.rarity d.main_stat_type max_level = some v →
          d.get_main_stat_value gd = v) ∧
        (get_drive_main_stat_value gd d.rarity d.main_stat_type max_level = none →
          d.get_main_stat_value gd = 0))) := by
  constructor
  · intro rarity level stat hs
    simp only [get_drive_main_stat_value, if_pos hs]
  · intro d max_level hml
    constructor
    · intro v hv
      simp only [DriveDisc.get_main_stat_value, hv]
    · intro hnone
      constructor
      · intro v hv
        simp only [DriveDisc.get_main_stat_value, hnone, hml, hv]
      · intro hv
        simp only [DriveDisc.get_main_stat_value, hnone, hml, hv]

theorem main_stat_lookup_normalization_and_fallback_witness :
    DriveDisc.get_main_stat_value discFireDmg gdDmgCurve = 30 ∧
    get_drive_main_stat_value gdDmgCurve .S .FIRE_DMG 15 =
      get_drive_main_stat_value gdDmgCurve .S .ETHER_DMG 15 := by
  have h := main_stat_lookup_normalization_and_fallback gdDmgCurve
  constructor
  · exact ((h.2 discFireDmg 15 rfl).2 rfl).1 30 rfl
  · rw [h.1 .S 15 .FIRE_DMG (by decide), h.1 .S 15 .ETHER_DMG (by decide)]

theorem validateSubStats_ok_iff (main : Stat) :
    ∀ (subs : List SubStatInstance) (seen : List Stat) (total : ℤ),
    (exceptIsOk (validateSubStats main subs seen total) = true ↔
      ((∀ sub ∈ subs, sub.stat_type ≠ main ∧ sub.stat_type ∈ POSSIBLE_SUBSTATS ∧
          0 ≤ sub.rolls ∧ sub.rolls ≤ MAX_SUBSTAT_ROLLS ∧ sub.stat_type ∉ seen) ∧
        subs.Pairwise (fun x y => x.stat_type ≠ y.stat_type)))
  | [] => by
    intro seen total
    simp [validateSubStats, exceptIsOk]
  | sub :: rest => by
    intro seen total
    simp only [validateSubStats]
    by_cases h1 : sub.stat_type = main
    · rw [if_pos h1]
      refine iff_of_false (by simp [exceptIsOk]) ?_
      rintro ⟨hall, -⟩
      exact (hall sub (List.mem_cons_self sub rest)).1 h1
    · rw [if_neg h1]
      by_cases h2 : sub.stat_type ∈ POSSIBLE_SUBSTATS
      · rw [if_neg (not_not_intro h2)]
        by_cases h3 : sub.stat_type ∈ seen
        · rw [if_pos h3]
          refine iff_of_false (by simp [exceptIsOk]) ?_
          rintro ⟨hall, -⟩
          exact (hall sub (List.mem_cons_self sub rest)).2.2.2.2 h3
        · rw [if_neg h3]
          by_cases h4 : 0 ≤ sub.rolls ∧ sub.rolls ≤ MAX_SUBSTAT_ROLLS
          · rw [if_neg (not_not_intro h4)]
            rw [validateSubStats_ok_iff main rest (sub.stat_type :: seen) (total + sub.rolls)]
            constructor
            · rintro ⟨hall, hpw⟩
              refine ⟨?_, ?_⟩
              · intro s hs
                rcases List.mem_cons.mp hs with rfl | hs'
                · exact ⟨h1, h2, h4.1, h4.2, h3⟩
                · obtain ⟨c1, c2, c3, c4, c5⟩ := hall s hs'
                  exact ⟨c1, c2, c3, c4, fun hm => c5 (List.mem_cons_of_mem _ hm)⟩
              · rw [List.pairwise_cons]
                refine ⟨?_, hpw⟩
                intro y hy heq
                apply (hall y hy).2.2.2.2
                rw [← heq]
                exact List.mem_cons_self _ _
            · rintro ⟨hall, hpw⟩
              have hpc := List.pairwise_cons.mp hpw
              refine ⟨?_, hpc.2⟩
              intro s hs
              obtain ⟨c1, c2, c3, c4, c5⟩ := hall s (List.mem_cons_of_mem _ hs)
              refine ⟨c1, c2, c3, c4, ?_⟩
              intro hm
              rcases List.mem_cons.mp hm with heq | hm'
              · exact hpc.1 s hs heq.symm
              · exact c5 hm'
          · rw [if_pos h4]
            refine iff_of_false (by simp [exceptIsOk]) ?_
            rintro ⟨hall, -⟩
            exact h4 ⟨(hall sub (List.mem_cons_self sub rest)).2.2.1,
              (hall sub (List.mem_cons_self sub rest)).2.2.2.1⟩
      · rw [if_pos h2]
        refine iff_of_false (by simp [exceptIsOk]) ?_
        rintro ⟨hall, -⟩
        exact h2 (hall sub (List.mem_cons_self sub rest)).2.1

theorem validateSubStats_ok_sum (main : Stat) :
    ∀ (subs : List SubStatInstance) (seen : List Stat) (total t : ℤ),
    validateSubStats main subs seen total = .ok t →
    t = total + (subs.map (fun sub => sub.rolls)).sum
  | [] => by
    intro seen total t h
    simp only [validateSubStats, Except.ok.injEq] at h
    simp [← h]
  | sub :: rest => by
    intro seen total t h
    simp only [validateSubStats] at h
    split_ifs at h <;>
      first
        | (exact absurd h (by simp))
        | (have hrec := validateSubStats_ok_sum main rest _ _ _ h
           simp only [List.map_cons, List.sum_cons]
           omega)

theorem not_discViolation_iff (slot : ℤ) (main : Stat) (subs : List SubStatInstance) :
    ¬ discViolation slot main subs ↔
      ((1 ≤ slot ∧ slot ≤ 6) ∧ main ∈ POSSIBLE_MAIN_STATS_PER_SLOT slot ∧
        (subs.length : ℤ) ≤ MAX_SUBSTATS_COUNT ∧
        (∀ sub ∈ subs, sub.stat_type ∈ POSSIBLE_SUBSTATS) ∧
        subs.Pairwise (fun x y => x.stat_type ≠ y.stat_type) ∧
        (∀ sub ∈ subs, sub.stat_type ≠ main) ∧
        (∀ sub ∈ subs, 0 ≤ sub.rolls ∧ sub.rolls ≤ MAX_SUBSTAT_ROLLS) ∧
        (subs.map (fun sub => sub.rolls)).sum ≤ MAX_SUBSTAT_ROLLS) := by
  unfold discViolation
  push_neg
  tauto

theorem mkDriveDisc_isOk_iff (sd : DriveDiscSetData) (rarity : Rarity) (level slot : ℤ)
    (main : Stat) (subs : List SubStatInstance) :
    exceptIsOk (mkDriveDisc sd rarity level slot main subs) = true ↔
      ¬ discViolation slot main subs := by
  rw [not_discViolation_iff]
  simp only [mkDriveDisc]
  by_cases hslot : 1 ≤ slot ∧ slot ≤ 6
  · rw [if_neg (not_not_intro hslot)]
    by_cases hmain : main ∈ POSSIBLE_MAIN_STATS_PER_SLOT slot
    · rw [if_neg (not_not_intro hmain)]
      by_cases hlen : (subs.length : ℤ) > MAX_SUBSTATS_COUNT
      · rw [if_pos hlen]
        refine iff_of_false (by simp [exceptIsOk]) ?_
        rintro ⟨-, -, hlen', -⟩
        omega
      · rw [if_neg hlen]
        cases hv : validateSubStats main subs [] 0 with
        | error e =>
          refine iff_of_false (by simp [exceptIsOk]) ?_
          rintro ⟨-, -, -, hsubs, hpw, hne, hrolls, -⟩
          have hok : exceptIsOk (validateSubStats main subs [] 0) = true := by
            rw [validateSubStats_ok_iff]
            exact ⟨fun sub hs => ⟨hne sub hs, hsubs sub hs, (hrolls sub hs).1,
              (hrolls sub hs).2, by simp⟩, hpw⟩
          rw [hv] at hok
          simp [exceptIsOk] at hok
        | ok t =>
          have hsum := validateSubStats_ok_sum main subs [] 0 t hv
          dsimp only
          by_cases ht : t > MAX_SUBSTAT_ROLLS
          · rw [if_pos ht]
            refine iff_of_false (by simp [exceptIsOk]) ?_
            rintro ⟨-, -, -, -, -, -, -, hsum'⟩
            omega
          · rw [if_neg ht]
            refine iff_of_true (by simp [exceptIsOk]) ?_
            have hok : exceptIsOk (validateSubStats main subs [] 0) = true := by
              rw [hv]
              simp [exceptIsOk]
            rw [validateSubStats_ok_iff] at hok
            obtain ⟨hall, hpw⟩ := hok
            refine ⟨hslot, hmain, by omega, fun sub hs => (hall sub hs).2.1, hpw,
              fun sub hs => (hall sub hs).1,
              fun sub hs => ⟨(hall sub hs).2.2.1, (hall sub hs).2.2.2.1⟩, by omega⟩
    · rw [if_pos hmain]
      refine iff_of_false (by simp [exceptIsOk]) ?_
      rintro ⟨-, hmain', -⟩
      exact hmain hmain'
  · rw [if_pos hslot]
    refine iff_of_false (by simp [exceptIsOk]) ?_
    rintro ⟨hslot', -⟩
    exact hslot hslot'

/-- C4: An equipped Drive Disc construction fails with a descriptive
validation error (modelled as `Except.error`, so no half-valid record
can be obtained) if and only if at least one invariant is violated:
slot outside 1-6, main stat not in the slot's candidate list, more
than 4 substats, a substat outside the allowed set, a duplicate
substat, a substat equal to the main stat, an individual roll count
outside 0-5, or the roll counts summing to more than 5; an
out-of-range level never causes failure and is clamped to
`[0, rarity-max]`. -/
theorem drive_disc_validation (sd : DriveDiscSetData) (rarity : Rarity) (level slot : ℤ)
    (main : Stat) (subs : List SubStatInstance) :
    (exceptIsOk (mkDriveDisc sd rarity level slot main subs) = true ↔
      ¬ discViolation slot main subs) ∧
    (∀ level', exceptIsOk (mkDriveDisc sd rarity level' slot main subs) =
      exceptIsOk (mkDriveDisc sd rarity level slot main subs)) ∧
    (∀ d, mkDriveDisc sd rarity level slot main subs = .ok d →
      d.level = max 0 (min level ((MAX_LEVEL_PER_RARITY rarity).getD 0)) ∧
      d.slot = slot ∧ d.main_stat_type = main ∧ d.sub_stats = subs ∧
      d.rarity = rarity ∧ d.set_data = sd) := by
  refine ⟨mkDriveDisc_isOk_iff sd rarity level slot main subs, ?_, ?_⟩
  · intro level'
    have h1 := mkDriveDisc_isOk_iff sd rarity level' slot main subs
    have h2 := mkDriveDisc_isOk_iff sd rarity level slot main subs
    cases hb1 : exceptIsOk (mkDriveDisc sd rarity level' slot main subs) <;>
      cases hb2 : exceptIsOk (mkDriveDisc sd rarity level slot main subs) <;>
      simp_all
  · intro d
    simp only [mkDriveDisc]
    by_cases hs1 : 1 ≤ slot ∧ slot ≤ 6
    case neg =>
      rw [if_pos hs1]
      intro h
      simp at h
    case pos =>
      rw [if_neg (not_not_intro hs1)]
      by_cases hs2 : main ∈ POSSIBLE_MAIN_STATS_PER_SLOT slot
      case neg =>
        rw [if_pos hs2]
        intro h
        simp at h
      case pos =>
        rw [if_neg (not_not_intro hs2)]
        by_cases hs3 : (subs.length : ℤ) > MAX_SUBSTATS_COUNT
        case pos =>
          rw [if_pos hs3]
          intro h
          simp at h
        case neg =>
          rw [if_neg hs3]
          cases hv : validateSubStats main subs [] 0 with
          | error e =>
            intro h
            simp at h
          | ok t =>
            dsimp only
            by_cases ht : t > MAX_SUBSTAT_ROLLS
            · rw [if_pos ht]
              intro h
              simp at h
            · rw [if_neg ht]
              intro h
              obtain rfl : _ = d := (Except.ok.injEq _ _).mp h
              exact ⟨rfl, rfl, rfl, rfl, rfl, rfl⟩

theorem drive_disc_validation_witness :
    exceptIsOk (mkDriveDisc setNoBonusA .S 15 4 .ATK_PERCENT
      [⟨.CRIT_RATE, 3⟩, ⟨.CRIT_DMG, 3⟩]) = false ∧
    exceptIsOk (mkDriveDisc setNoBonusA .S 15 4 .ATK_PERCENT
      [⟨.CRIT_RATE, 3⟩, ⟨.CRIT_DMG, 2⟩]) = true ∧
    mkDriveDisc setNoBonusA .S 20 1 .HP [] = .ok
      { set_data := setNoBonusA, rarity := .S, level := 15, slot := 1,
        main_stat_type := .HP, sub_stats := [] } := by
  refine ⟨?_, ?_, rfl⟩
  · have h := (drive_disc_validation setNoBonusA .S 15 4 .ATK_PERCENT
      [⟨.CRIT_RATE, 3⟩, ⟨.CRIT_DMG, 3⟩]).1
    have hviol : discViolation 4 .ATK_PERCENT [⟨.CRIT_RATE, 3⟩, ⟨.CRIT_DMG, 3⟩] := by
      unfold discViolation
      right; right; right; right; right; right; right
      decide
    cases hb : exceptIsOk (mkDriveDisc setNoBonusA .S 15 4 .ATK_PERCENT
      [⟨.CRIT_RATE, 3⟩, ⟨.CRIT_DMG, 3⟩])
    · rfl
    · rw [hb] at h
      exact absurd hviol (h.mp rfl)
  · apply (drive_disc_validation setNoBonusA .S 15 4 .ATK_PERCENT
      [⟨.CRIT_RATE, 3⟩, ⟨.CRIT_DMG, 2⟩]).1.mpr
    rw [not_discViolation_iff]
    exact ⟨by decide, by decide, by decide, by decide, by decide, by decide, by decide,
      by decide⟩


/-- C3: The claim describes the set grouping, threshold and
exactly-once contribution semantics, but `Agent.get_active_set_counts`
raises `TypeError` as soon as one disc is equipped: `DriveDiscSetData`
is a non-frozen eq dataclass, hence unhashable, and the very first
`set_counts.get(set_data, 0)` hashes it.  No set is ever counted and
no 2-piece bonus is ever applied; with no discs the function returns
the empty dict. -/
theorem set_counting_raises_type_error (d : DriveDisc) (rest : List DriveDisc) :
    pyGetActiveSetCounts (d :: rest) =
      .error "TypeError: unhashable type: DriveDiscSetData" ∧
    pyGetActiveSetCounts [] = .ok [] ∧
    pyGetActiveSetCounts (discsTwoPlusOne.map Prod.snd) =
      .error "TypeError: unhashable type: DriveDiscSetData" :=
  ⟨rfl, rfl, rfl⟩

end FlashFreeze
